import Mathlib

/-!
Shallow embedding of the SSRF-resistant image-URL validation engine of
`src/packages/backend/src/security/imageUrlValidator.ts` (TypeScript),
together with theorems settling the frozen claims about it.

Conventions of the embedding:

* Strings are modelled by Lean `String` / `List Char`; the inputs of
  interest are ASCII, on which JavaScript string semantics (UTF-16 units)
  and Lean semantics (characters) agree.
* JavaScript 32-bit signed shifts (`<<`) are modelled exactly, via
  `toInt32`, because the source's `ipToNumber` relies on them.
* Network effects (DNS lookup, the HEAD probe, relative-URL resolution by
  the platform's WHATWG `URL` constructor) are passed in as explicit
  oracle functions, so every definition stays executable and a concrete
  run of the validator is a plain computation.
* A promise rejection escaping the redirect chain is modelled by the
  probe oracle returning `Except.error`; the chain propagates it and the
  entry point catches it, mirroring the `try`/`catch` of the source.
-/

/-- ASCII lower-casing of one character; models `String.prototype.toLowerCase`
on the ASCII inputs this development considers. -/
def lcChar (c : Char) : Char :=
  if 'A' ≤ c ∧ c ≤ 'Z' then Char.ofNat (c.toNat + 32) else c

/-- Lower-case a character list. -/
def lcList (l : List Char) : List Char := l.map lcChar

/-- Does `l` start with `pat`?  (Models `String.prototype.startsWith`.) -/
def startsWithL : List Char → List Char → Bool
  | [], _ => true
  | _ :: _, [] => false
  | p :: ps, c :: cs => p = c && startsWithL ps cs

/-- Does `l` end with `pat`? -/
def endsWithL (pat l : List Char) : Bool :=
  startsWithL pat.reverse l.reverse

/-- Does `l` contain `pat` as a contiguous subsequence?
(Models `String.prototype.includes`.) -/
def containsSeqL (pat : List Char) : List Char → Bool
  | [] => startsWithL pat []
  | c :: cs => startsWithL pat (c :: cs) || containsSeqL pat cs

/-- Split on a separator character, keeping empty segments; models
`String.prototype.split` with a single-character separator. -/
def splitOnC (sep : Char) : List Char → List (List Char)
  | [] => [[]]
  | c :: cs =>
    let r := splitOnC sep cs
    if c = sep then [] :: r
    else
      match r with
      | [] => [[c]]
      | h :: t => (c :: h) :: t

/-- Decimal digit test. -/
def isDigitC (c : Char) : Bool := '0' ≤ c && c ≤ '9'

/-- Hexadecimal digit test (both cases), as in the source's regexes. -/
def isHexC (c : Char) : Bool :=
  isDigitC c || ('a' ≤ c && c ≤ 'f') || ('A' ≤ c && c ≤ 'F')

/-- Numeric value of a run of decimal digits. -/
def digitsVal (l : List Char) : Nat :=
  l.foldl (fun a c => a * 10 + (c.toNat - 48)) 0

/-- Whitespace skipped by JavaScript's `parseInt` and `trim` (ASCII part;
the Unicode spaces JS also skips do not occur in the inputs considered). -/
def isJsWs (c : Char) : Bool :=
  c = ' ' || c = '\t' || c = '\n' || c = '\r' ||
  c = Char.ofNat 11 || c = Char.ofNat 12

/-- Models `parseInt(s, 10)`: skip leading whitespace, optional sign, read
the leading run of decimal digits; `none` models `NaN`. -/
def parseIntJs (l : List Char) : Option Int :=
  let l1 := l.dropWhile isJsWs
  match l1 with
  | '-' :: rest =>
    let ds := rest.takeWhile isDigitC
    if ds = [] then none else some (-(digitsVal ds : Int))
  | '+' :: rest =>
    let ds := rest.takeWhile isDigitC
    if ds = [] then none else some (digitsVal ds : Int)
  | _ =>
    let ds := l1.takeWhile isDigitC
    if ds = [] then none else some (digitsVal ds : Int)

/-- Reinterpret an integer as a 32-bit signed value (JavaScript `ToInt32`). -/
def toInt32 (x : Int) : Int :=
  let m := x.emod 4294967296
  if m < 2147483648 then m else m - 4294967296

/-- JavaScript's `x << n` on 32-bit signed integers. -/
def jsShl (x : Int) (n : Nat) : Int :=
  toInt32 (x.emod 4294967296 * (2 ^ n))

/-- Maximum number of redirects to follow (source constant `MAX_REDIRECTS`). -/
def MAX_REDIRECTS : Nat := 3

/-- Request timeout in milliseconds (source constant `REQUEST_TIMEOUT`). -/
def REQUEST_TIMEOUT : Nat := 5000

/-- Maximum URL length (source constant `MAX_URL_LENGTH`). -/
def MAX_URL_LENGTH : Nat := 2048

/-- The source's `BLOCKED_IP_RANGES` table, verbatim (start/end strings). -/
def BLOCKED_IP_RANGES : List (String × String) :=
  [("127.0.0.0", "127.255.255.255"),
   ("10.0.0.0", "10.255.255.255"),
   ("172.16.0.0", "172.31.255.255"),
   ("192.168.0.0", "192.168.255.255"),
   ("169.254.0.0", "169.254.255.255"),
   ("169.254.169.254", "169.254.169.254"),
   ("0.0.0.0", "0.255.255.255"),
   ("100.64.0.0", "100.127.255.255"),
   ("192.0.0.0", "192.0.0.255"),
   ("192.0.2.0", "192.0.2.255"),
   ("198.51.100.0", "198.51.100.255"),
   ("203.0.113.0", "203.0.113.255"),
   ("198.18.0.0", "198.19.255.255"),
   ("224.0.0.0", "239.255.255.255"),
   ("240.0.0.0", "255.255.255.255")]

/-- Embedding of the source's `ipToNumber`:
`(parts[0] << 24) + (parts[1] << 16) + (parts[2] << 8) + parts[3]`, where
`<<` is JavaScript's signed 32-bit shift and the parts come from
`ip.split('.').map(p => parseInt(p, 10))`; `-1` on a malformed split. -/
def ipToNumber (ip : String) : Int :=
  let parts := (splitOnC '.' ip.data).map parseIntJs
  if parts.length ≠ 4 ∨ parts.any (· = none) then -1
  else
    match parts with
    | [some a, some b, some c, some d] =>
      jsShl a 24 + jsShl b 16 + jsShl c 8 + d
    | _ => -1

/-- Embedding of the source's `isBlockedIP`: a negative `ipToNumber` is
blocked ("Invalid IP, block it"), otherwise membership in any range of
`BLOCKED_IP_RANGES` (bounds re-converted through `ipToNumber` each time,
as in the source). -/
def isBlockedIP (ip : String) : Bool :=
  let ipNum := ipToNumber ip
  if ipNum < 0 then true
  else
    BLOCKED_IP_RANGES.any fun range =>
      ipToNumber range.1 ≤ ipNum && ipNum ≤ ipToNumber range.2

/-- The spec-side unsigned interpretation of a dotted quad, used only to
*compare* the code against the claims: "convert dotted-quad to a 32-bit
unsigned integer".  `a.b.c.d ↦ a·2²⁴ + b·2¹⁶ + c·2⁸ + d` on `Nat`. -/
def specIpv4ToUint (a b c d : Nat) : Nat :=
  a * 16777216 + b * 65536 + c * 256 + d

/-- Spec-side membership of an (unsigned) IPv4 value in the listed blocked
ranges, interpreting the source's range table with unsigned arithmetic as
the spec describes. -/
def specInBlockedRange (n : Nat) : Bool :=
  [(2130706432, 2147483647),
   (167772160, 184549375),
   (2886729728, 2887778303),
   (3232235520, 3232301055),
   (2851995648, 2852061183),
   (2852039166, 2852039166),
   (0, 16777215),
   (1681915904, 1686110207),
   (3221225472, 3221225727),
   (3221225984, 3221226239),
   (3325256704, 3325256959),
   (3405803776, 3405804031),
   (3323068416, 3323199487),
   (3758096384, 4026531839),
   (4026531840, 4294967295)].any fun r => r.1 ≤ n && n ≤ r.2

/-- The exact-match entries of the source's `BLOCKED_HOSTNAME_PATTERNS`
(`^localhost$`, `^local$`, `^host$`, `^ip6-localhost$`, `^ip6-loopback$`;
case-insensitivity is obtained by lower-casing the hostname first, as the
source does). -/
def blockedHostnameExact : List String :=
  ["localhost", "local", "host", "ip6-localhost", "ip6-loopback"]

/-- The suffix-match entries of the source's `BLOCKED_HOSTNAME_PATTERNS`
(each regex of the form `\.foo$`). -/
def blockedHostnameSuffix : List String :=
  [".local", ".internal", ".localdomain", ".localhost", ".home", ".lan",
   ".intranet", ".corp", ".private", ".ip6.allhosts", ".ip6.allnodes",
   ".ip6.allrouters", ".ip6.local", ".kubernetes.default",
   ".kubernetes.default.svc", ".svc.cluster.local", ".docker.internal",
   ".metadata", ".metadata.google", ".metadata.google.internal"]

/-- Embedding of the source's `isBlockedHostname`: lower-case, then test
every pattern (exact anchors and `\.suffix$` anchors). -/
def isBlockedHostname (hostname : String) : Bool :=
  let n := lcList hostname.data
  blockedHostnameExact.any (fun p => n = p.data) ||
  blockedHostnameSuffix.any (fun p => endsWithL p.data n)

/-- One to three decimal digits — the `\d{1,3}` piece of the source's
IPv4 regexes. -/
def run13 (l : List Char) : Bool :=
  decide (1 ≤ l.length) && decide (l.length ≤ 3) && l.all isDigitC

/-- The dotted-quad shape `^(\d{1,3}\.){3}\d{1,3}$`: splitting on `'.'`
yields exactly four runs of one to three digits. -/
def quadPatL (l : List Char) : Bool :=
  let ps := splitOnC '.' l
  ps.length = 4 && ps.all run13

/-- The source's `ipv6Pattern` `^([0-9a-fA-F]{0,4}:){2,7}[0-9a-fA-F]{0,4}$`:
splitting on `':'` yields three to eight groups of at most four hex digits
(the repetition count `{2,7}` counts the colons, so groups = colons + 1). -/
def ipv6FullPat (l : List Char) : Bool :=
  let ps := splitOnC ':' l
  decide (3 ≤ ps.length) && decide (ps.length ≤ 8) &&
  ps.all (fun p => decide (p.length ≤ 4) && p.all isHexC)

/-- A hex digit or a colon — the `[0-9a-fA-F:]` class. -/
def isHexColon (c : Char) : Bool := isHexC c || c = ':'

/-- The source's `ipv6ShorthandPattern`
`^::$|^::[0-9a-fA-F:]+$|^[0-9a-fA-F:]+::$|^[0-9a-fA-F:]+::[0-9a-fA-F:]+$`,
alternative by alternative. -/
def ipv6ShorthandPat (l : List Char) : Bool :=
  (l = [':', ':']) ||
  (startsWithL [':', ':'] l && decide (l.drop 2 ≠ []) &&
     (l.drop 2).all isHexColon) ||
  (endsWithL [':', ':'] l && decide (l.take (l.length - 2) ≠ []) &&
     (l.take (l.length - 2)).all isHexColon) ||
  ((List.range l.length).any fun i =>
     startsWithL [':', ':'] (l.drop i) && decide (l.take i ≠ []) &&
     decide (l.drop (i + 2) ≠ []) && (l.take i).all isHexColon &&
     (l.drop (i + 2)).all isHexColon)

/-- Embedding of the source's `isIPAddress`.  Note the early `return`
inside the IPv4 branch: a string matching the dotted-quad *shape* with an
out-of-range octet returns `false` without trying the IPv6 patterns. -/
def isIPAddress (str : String) : Bool :=
  let l := str.data
  if quadPatL l then
    (splitOnC '.' l).all fun p => decide (digitsVal p ≤ 255)
  else if ipv6FullPat l then true
  else if ipv6ShorthandPat l then true
  else false

/-- Leftmost match of the source's anchored regex
`/:ffff:(\d{1,3}\.\d{1,3}\.\d{1,3}\.\d{1,3})$/` against a character list:
returns the captured dotted-quad group when the list contains `":ffff:"`
followed by a dotted quad that extends to the end of the string. -/
def findMappedV4 : List Char → Option (List Char)
  | [] => none
  | c :: cs =>
    if startsWithL [':', 'f', 'f', 'f', 'f', ':'] (c :: cs) &&
        quadPatL ((c :: cs).drop 6) then
      some ((c :: cs).drop 6)
    else findMappedV4 cs

/-- Core of the source's `isBlockedIPv6`, operating on the already
lower-cased character list (the source lower-cases its argument first). -/
def isBlockedIPv6Core (n : List Char) : Bool :=
  if n = "::1".data ∨ n = "0:0:0:0:0:0:0:1".data then true
  else if n = "::".data ∨ n = "0:0:0:0:0:0:0:0".data then true
  else if startsWithL "fe80:".data n || startsWithL "fe8".data n ||
      startsWithL "fe9".data n || startsWithL "fea".data n ||
      startsWithL "feb".data n then true
  else if startsWithL "fc".data n || startsWithL "fd".data n then true
  else if startsWithL "ff".data n then true
  else if containsSeqL ":ffff:".data n then
    match findMappedV4 n with
    | some quad => isBlockedIP (String.mk quad)
    | none => false
  else false

/-- Embedding of the source's `isBlockedIPv6`. -/
def isBlockedIPv6 (ip : String) : Bool :=
  isBlockedIPv6Core (lcList ip.data)

/-- The result record of the source (`ImageValidationResult`):
`{ valid: boolean; error?: string }`. -/
structure ImageValidationResult where
  valid : Bool
  error : Option String
deriving DecidableEq, Repr

/-- The pieces of a parsed URL that the validator reads (`parsedUrl.protocol`
and `parsedUrl.hostname`). -/
structure UrlParts where
  protocol : String
  hostname : String
deriving DecidableEq, Repr

/-- Scheme characters after the first (letters, digits, `+`, `-`, `.`). -/
def isSchemeTail (c : Char) : Bool :=
  c.isAlpha || isDigitC c || c = '+' || c = '-' || c = '.'

/-- Model of the platform's WHATWG `new URL(s)` restricted to what the
validator reads, adequate for the inputs considered in this development:
a leading scheme, for the special schemes `http`/`https` an authority
terminated by `/`, `?` or `#` (userinfo dropped at the last `@`; an IPv6
host keeps its square brackets, exactly as WHATWG serialises it; a port
after `:` is dropped; the hostname is lower-cased; an empty host fails);
other schemes parse with a null host.  `none` models a thrown `TypeError`. -/
def parseUrl (s : String) : Option UrlParts :=
  let l := s.data
  let sch := l.takeWhile isSchemeTail
  match sch with
  | [] => none
  | c0 :: _ =>
    if ¬ c0.isAlpha then none
    else if ¬ startsWithL [':'] (l.drop sch.length) then none
    else
      let scheme := lcList sch
      let rest := l.drop (sch.length + 1)
      if scheme = "http".data ∨ scheme = "https".data then
        let afterSlashes := rest.dropWhile (· = '/')
        let authority := afterSlashes.takeWhile
          (fun c => c ≠ '/' && c ≠ '?' && c ≠ '#')
        let hostPort :=
          if containsSeqL ['@'] authority then
            (splitOnC '@' authority).getLastD []
          else authority
        if startsWithL ['['] hostPort then
          if containsSeqL [']'] hostPort then
            some ⟨String.mk (scheme ++ [':']),
                  String.mk (lcList
                    ((hostPort.takeWhile (· ≠ ']')) ++ [']']))⟩
          else none
        else
          let host := hostPort.takeWhile (· ≠ ':')
          if host = [] then none
          else some ⟨String.mk (scheme ++ [':']), String.mk (lcList host)⟩
      else
        some ⟨String.mk (scheme ++ [':']), ""⟩

/-- The per-address blocked test applied to each DNS-resolved address in
the source's `validateSingleUrl` loop: IPv6 when it contains a colon,
IPvv4 otherwise. -/
def blockedResolvedAddr (ip : String) : Bool :=
  if ip.data.contains ':' then isBlockedIPv6 ip else isBlockedIP ip

/-- Embedding of the source's `validateSingleUrl`.  The DNS side effect
(`resolveHostname`, i.e. `dns.lookup` with `all: true`) is the oracle
`resolver`; `none` models a lookup error, which the source converts into
the `'Failed to resolve hostname'` verdict. -/
def validateSingleUrl (resolver : String → Option (List String))
    (urlString : String) : ImageValidationResult :=
  if urlString.length > MAX_URL_LENGTH then
    ⟨false, some "URL exceeds maximum length"⟩
  else
    match parseUrl urlString with
    | none => ⟨false, some "Invalid URL format"⟩
    | some parsedUrl =>
      if parsedUrl.protocol ≠ "https:" then
        ⟨false, some "Only HTTPS protocol is allowed for image URLs"⟩
      else
        let hostname := parsedUrl.hostname
        if isBlockedHostname hostname then
          ⟨false, some "Hostname is not allowed"⟩
        else if isIPAddress hostname then
          if hostname.data.contains ':' then
            if isBlockedIPv6 hostname then
              ⟨false, some "IP address is not allowed"⟩
            else ⟨true, none⟩
          else
            if isBlockedIP hostname then
              ⟨false, some "IP address is not allowed"⟩
            else ⟨true, none⟩
        else
          match resolver hostname with
          | none => ⟨false, some "Failed to resolve hostname"⟩
          | some ips =>
            match ips.find? blockedResolvedAddr with
            | some _ => ⟨false, some "Resolved IP address is not allowed"⟩
            | none => ⟨true, none⟩

/-- Outcome of the single HEAD attempt issued by `checkForRedirect`:
either a response (with its optional status code and optional `Location`
header, as surfaced by Node), a transport error (`req.on('error')`), or
the `REQUEST_TIMEOUT` firing (`req.on('timeout')`). -/
inductive ProbeOutcome where
  | response (statusCode : Option Nat) (location : Option String)
  | transportError
  | timeout
deriving DecidableEq, Repr

/-- What `checkForRedirect` resolves its promise with, plus whether the
in-flight request was destroyed (`req.destroy()`). -/
structure RedirectCheck where
  hasRedirect : Bool
  redirectUrl : Option String
  destroyed : Bool
deriving DecidableEq, Repr

/-- JavaScript truthiness of an optional string (`undefined` and `''` are
falsy). -/
def optTruthy : Option String → Bool
  | some s => s ≠ ""
  | none => false

/-- Embedding of the source's `checkForRedirect`, with the network outcome
of the HEAD request supplied as data and the platform's relative-URL
resolution `new URL(location, urlString).href` supplied as the oracle
`resolveRel` (`none` models a thrown `TypeError`, caught by the source and
treated as no-redirect).  `res.statusCode || 0` is `statusCode.getD 0`;
the `Location` header is tested for truthiness, as in the source. -/
def checkForRedirect (resolveRel : String → String → Option String)
    (outcome : ProbeOutcome) (urlString : String) : RedirectCheck :=
  match outcome with
  | .response sc loc =>
    let statusCode := sc.getD 0
    if 300 ≤ statusCode ∧ statusCode < 400 ∧ optTruthy loc then
      match loc with
      | some location =>
        match resolveRel location urlString with
        | some redirectUrl => ⟨true, some redirectUrl, false⟩
        | none => ⟨false, none, false⟩
      | none => ⟨false, none, false⟩
    else ⟨false, none, false⟩
  | .transportError => ⟨false, none, false⟩
  | .timeout => ⟨false, none, true⟩

/-- Embedding of the body of the source's `followAndValidateRedirects`,
made structurally recursive on an explicit `fuel` argument so that the
definition computes.  The recursion of the source is bounded — it only
recurses while `redirectCount < MAX_REDIRECTS` — so any
`fuel ≥ MAX_REDIRECTS + 1 - redirectCount` makes the fuel invisible
(`followRedirectsAux_fuel_irrel` below); the fuel-0 fallback is
unreachable under that bound.  The mutable `visitedUrls` set is a list
threaded through the recursion; `net` gives the HEAD outcome per URL,
wrapped in `Except` so that an unexpected promise rejection
(`Except.error`) propagates out of the chain exactly as an exception does
in the source. -/
def followRedirectsAux (resolver : String → Option (List String))
    (resolveRel : String → String → Option String)
    (net : String → Except String ProbeOutcome) :
    Nat → String → Nat → List String →
    Except String ImageValidationResult
  | 0, _, _, _ => .ok ⟨false, some "Too many redirects"⟩
  | fuel + 1, urlString, redirectCount, visitedUrls =>
    if redirectCount > MAX_REDIRECTS then
      .ok ⟨false, some "Too many redirects"⟩
    else if urlString ∈ visitedUrls then
      .ok ⟨false, some "Redirect loop detected"⟩
    else
      let visited := urlString :: visitedUrls
      let urlValidation := validateSingleUrl resolver urlString
      if urlValidation.valid = false then
        .ok ⟨false, urlValidation.error⟩
      else if redirectCount = 0 ∨ redirectCount < MAX_REDIRECTS then
        match net urlString with
        | .error e => .error e
        | .ok outcome =>
          let redirectResult := checkForRedirect resolveRel outcome urlString
          if redirectResult.hasRedirect &&
              optTruthy redirectResult.redirectUrl then
            match redirectResult.redirectUrl with
            | some target =>
              followRedirectsAux resolver resolveRel net fuel target
                (redirectCount + 1) visited
            | none => .ok ⟨true, none⟩
          else .ok ⟨true, none⟩
      else .ok ⟨true, none⟩

/-- Embedding of the source's `followAndValidateRedirects`: the fuel
`MAX_REDIRECTS + 2` dominates `MAX_REDIRECTS + 1 - redirectCount` for
every `redirectCount`, so by `followRedirectsAux_fuel_irrel` this is the
fuel-free recursion of the source. -/
def followAndValidateRedirects (resolver : String → Option (List String))
    (resolveRel : String → String → Option String)
    (net : String → Except String ProbeOutcome)
    (urlString : String) (redirectCount : Nat) (visitedUrls : List String) :
    Except String ImageValidationResult :=
  followRedirectsAux resolver resolveRel net (MAX_REDIRECTS + 2) urlString
    redirectCount visitedUrls

/-- A hexadecimal digit rendered lower-case, as in IPv6 address text. -/
def hexDigitChar (n : Nat) : Char :=
  if n < 10 then Char.ofNat (48 + n) else Char.ofNat (87 + n)

/-- The four lower-case hex digits of a 16-bit IPv6 group value: every
textual form of an IPv6 address whose leading group is `g ≥ 0x1000`
begins with exactly these four characters. -/
def hex4 (g : Nat) : List Char :=
  [hexDigitChar (g / 4096 % 16), hexDigitChar (g / 256 % 16),
   hexDigitChar (g / 16 % 16), hexDigitChar (g % 16)]

/-- Concrete chain fixture: the `i`-th URL of a redirect chain over
distinct public hostnames. -/
def chainUrl (i : Nat) : String :=
  "https://h" ++ toString i ++ ".example.com/img.png"

/-- Concrete resolver oracle: every hostname resolves to the single
public address `93.184.216.34`. -/
def res0 : String → Option (List String) := fun _ => some ["93.184.216.34"]

/-- Concrete relative-URL-resolution oracle for absolute locations:
`new URL(loc, base).href = loc` when `loc` is already absolute and
normalised, as every location used in the fixtures is. -/
def rr0 : String → String → Option String := fun loc _ => some loc

/-- Probe-network fixture: a chain that redirects four times in a row,
`chainUrl 0 → chainUrl 1 → chainUrl 2 → chainUrl 3 → chainUrl 4`,
every hop answering `302` with a `Location` header. -/
def net4 : String → Except String ProbeOutcome := fun u =>
  .ok (.response (some 302)
    (if u = chainUrl 0 then some (chainUrl 1)
     else if u = chainUrl 1 then some (chainUrl 2)
     else if u = chainUrl 2 then some (chainUrl 3)
     else if u = chainUrl 3 then some (chainUrl 4)
     else none))

/-- Probe-network fixture: every URL redirects to `chainUrl 0`, so
`chainUrl 0` redirects back to itself. -/
def netSelf : String → Except String ProbeOutcome := fun _ =>
  .ok (.response (some 302) (some (chainUrl 0)))

/-- Probe-network fixture: a redirect cycle that closes only at the
fourth redirect: `chainUrl 0 → 1 → 2 → 3 → chainUrl 0`. -/
def netLoop4 : String → Except String ProbeOutcome := fun u =>
  .ok (.response (some 302)
    (if u = chainUrl 0 then some (chainUrl 1)
     else if u = chainUrl 1 then some (chainUrl 2)
     else if u = chainUrl 2 then some (chainUrl 3)
     else if u = chainUrl 3 then some (chainUrl 0)
     else none))

/-- Probe-network fixture: plain responses that are not redirects. -/
def netNone : String → Except String ProbeOutcome := fun _ =>
  .ok (.response (some 200) none)

/-- Probe-network fixture: the HEAD request's promise rejects with an
internal error. -/
def netThrow : String → Except String ProbeOutcome := fun _ =>
  .error "socket hang up"

/-- Control characters rejected by the entry point
(`/[\x00-\x1F\x7F]/`). -/
def hasControlChar (t : String) : Bool :=
  t.data.any fun c => c.toNat ≤ 31 || c.toNat = 127

/-- Models JavaScript `String.prototype.trim` on the ASCII inputs
considered. -/
def jsTrim (s : String) : String :=
  String.mk (((s.data.dropWhile isJsWs).reverse.dropWhile isJsWs).reverse)

/-- The entry point's double-slash-after-authority test
`/^https?:\/\/[^\/]*\/\//` (written `/^https?:\/\/[^/]*\/\//` in the
source): after a literal `http://` or `https://`, a run without `/`
followed by `//`.  Since the run may not contain `/`, the regex matches
exactly when the first `/` after the scheme's slashes is immediately
followed by another `/`. -/
def dsAfter : List Char → Bool
  | [] => false
  | '/' :: rest =>
    match rest with
    | '/' :: _ => true
    | _ => false
  | _ :: rest => dsAfter rest

/-- The full anchored double-slash check of the entry point. -/
def doubleSlashCheck (t : String) : Bool :=
  if startsWithL "https://".data t.data then dsAfter (t.data.drop 8)
  else if startsWithL "http://".data t.data then dsAfter (t.data.drop 7)
  else false

/-- Embedding of the source's `validateImageUrl` entry point on string
inputs (the `null`/`undefined`/non-string guards of the source are outside
a typed embedding).  The final `try`/`catch` converts any error escaping
the chain into the constant `'Failed to validate image URL'` verdict. -/
def validateImageUrl (resolver : String → Option (List String))
    (resolveRel : String → String → Option String)
    (net : String → Except String ProbeOutcome)
    (url : String) : ImageValidationResult :=
  let trimmedUrl := jsTrim url
  if trimmedUrl.length = 0 then
    ⟨false, some "Image URL cannot be empty"⟩
  else if hasControlChar trimmedUrl then
    ⟨false, some "Image URL contains invalid characters"⟩
  else if containsSeqL "%40".data trimmedUrl.data then
    ⟨false, some "Invalid URL format"⟩
  else if trimmedUrl.data.contains '\\' then
    ⟨false, some "Invalid URL format"⟩
  else if doubleSlashCheck trimmedUrl then
    ⟨false, some "Invalid URL format"⟩
  else
    match followAndValidateRedirects resolver resolveRel net trimmedUrl 0 []
    with
    | .ok result => result
    | .error _ => ⟨false, some "Failed to validate image URL"⟩

/-- Embedding of the source's `validateImageUrls`:
`Promise.all(urls.map(url => validateImageUrl(url)))`. -/
def validateImageUrls (resolver : String → Option (List String))
    (resolveRel : String → String → Option String)
    (net : String → Except String ProbeOutcome)
    (urls : List String) : List ImageValidationResult :=
  urls.map (validateImageUrl resolver resolveRel net)

/-- The fuel argument of `followRedirectsAux` is invisible as soon as it
dominates `MAX_REDIRECTS + 1 - redirectCount` (the deepest possible
remaining recursion), so `followAndValidateRedirects` is well defined. -/
theorem followRedirectsAux_fuel_irrel (resolver : String → Option (List String))
    (resolveRel : String → String → Option String)
    (net : String → Except String ProbeOutcome) :
    ∀ f₁ f₂ urlString redirectCount visitedUrls,
    MAX_REDIRECTS + 1 - redirectCount ≤ f₁ →
    MAX_REDIRECTS + 1 - redirectCount ≤ f₂ →
    followRedirectsAux resolver resolveRel net f₁ urlString redirectCount
      visitedUrls =
    followRedirectsAux resolver resolveRel net f₂ urlString redirectCount
      visitedUrls := by
  intro f₁
  induction f₁ with
  | zero =>
    intro f₂ u c v h₁ h₂
    have hc : MAX_REDIRECTS < c := by omega
    cases f₂ with
    | zero => rfl
    | succ m =>
      simp only [followRedirectsAux]
      rw [if_pos hc]
  | succ n ih =>
    intro f₂ u c v h₁ h₂
    cases f₂ with
    | zero =>
      have hc : MAX_REDIRECTS < c := by omega
      simp only [followRedirectsAux]
      rw [if_pos hc]
    | succ m =>
      simp only [followRedirectsAux]
      by_cases hc : c > MAX_REDIRECTS
      · rw [if_pos hc, if_pos hc]
      · rw [if_neg hc, if_neg hc]
        by_cases hv : u ∈ v
        · rw [if_pos hv, if_pos hv]
        · rw [if_neg hv, if_neg hv]
          by_cases hval : (validateSingleUrl resolver u).valid = false
          · rw [if_pos hval, if_pos hval]
          · rw [if_neg hval, if_neg hval]
            by_cases hg : c = 0 ∨ c < MAX_REDIRECTS
            · rw [if_pos hg, if_pos hg]
              cases net u with
              | error e => rfl
              | ok outcome =>
                simp only
                by_cases hr :
                    ((checkForRedirect resolveRel outcome u).hasRedirect &&
                      optTruthy (checkForRedirect resolveRel outcome
                        u).redirectUrl) = true
                · rw [if_pos hr, if_pos hr]
                  cases htarget :
                      (checkForRedirect resolveRel outcome u).redirectUrl with
                  | none => rfl
                  | some target =>
                    simp only
                    apply ih
                    · simp only [MAX_REDIRECTS] at *
                      omega
                    · simp only [MAX_REDIRECTS] at *
                      omega
                · rw [if_neg hr, if_neg hr]
            · rw [if_neg hg, if_neg hg]

/-- Claim C2.  The claim asserts `isBlockedIP` returns true exactly for
the listed ranges plus unparseable strings.  The code instead computes
`ipToNumber` with JavaScript's *signed* 32-bit shift, so every valid quad
with first octet ≥ 128 comes out negative and is blocked through the
"Invalid IP, block it" guard: the public address `150.0.0.0`, outside
every listed range under the spec's unsigned reading, is blocked; and the
octet-overflowing non-quad `1.300.1.1` parses to a positive number outside
all ranges and is *allowed*, violating fail-closed.  The claim's own
examples (`8.8.8.8`, `93.184.216.34` allowed; in-range addresses blocked)
do hold. -/
theorem C2_isBlockedIP_signed_overflow :
    isBlockedIP "8.8.8.8" = false ∧
    isBlockedIP "93.184.216.34" = false ∧
    isBlockedIP "127.0.0.1" = true ∧
    isBlockedIP "10.255.0.1" = true ∧
    isBlockedIP "172.16.5.5" = true ∧
    isBlockedIP "192.168.1.1" = true ∧
    isBlockedIP "169.254.169.254" = true ∧
    isBlockedIP "100.64.0.9" = true ∧
    isBlockedIP "224.0.0.1" = true ∧
    isBlockedIP "not-an-ip" = true ∧
    isBlockedIP "1.2.3" = true ∧
    ipToNumber "150.0.0.0" = -1778384896 ∧
    isBlockedIP "150.0.0.0" = true ∧
    specInBlockedRange (specIpv4ToUint 150 0 0 0) = false ∧
    isBlockedIP "1.300.1.1" = false := by
  decide

/-- Claim C10.  The IPv4-mapped re-check in `isBlockedIPv6` fires only
when the text after `":ffff:"` is a dotted-decimal quad extending to the
end of the string: the hex-payload mapped encoding `::ffff:7f00:1` of
loopback `127.0.0.1` is *not* blocked, although the dotted form both as
plain IPv4 and as mapped IPv6 is. -/
theorem C10_mapped_recheck_dotted_only :
    isBlockedIPv6 "::ffff:7f00:1" = false ∧
    findMappedV4 (lcList "::ffff:7f00:1".data) = none ∧
    isBlockedIP "127.0.0.1" = true ∧
    isBlockedIPv6 "::ffff:127.0.0.1" = true := by
  decide

/-- Claim C3.  The IPv4 half of the claim holds: an IPv4-literal hostname
is classified directly (`169.254.169.254` → "IP address is not allowed")
and an unblocked IPv4 literal succeeds with no DNS dependence (the
verdict is the same under a resolver that always fails).  The IPv6 half
fails on the code: WHATWG `URL` keeps the square brackets in an IPv6
hostname (`"[::1]"`), which never matches `isIPAddress`, so the validator
falls through to DNS resolution — a blocked literal `[::1]` yields
"Failed to resolve hostname" under a failing resolver and even succeeds
under a resolver that returns a public address, instead of the claimed
direct `IpNotAllowed` classification without DNS. -/
theorem C3_ip_literal_classification :
    validateImageUrl res0 rr0 netNone
      "https://169.254.169.254/latest/meta-data/" =
      ⟨false, some "IP address is not allowed"⟩ ∧
    validateSingleUrl res0 "https://169.254.169.254/latest/meta-data/" =
      ⟨false, some "IP address is not allowed"⟩ ∧
    validateSingleUrl (fun _ => none) "https://1.2.3.4/x.png" =
      ⟨true, none⟩ ∧
    isBlockedIPv6 "::1" = true ∧
    isIPAddress "[::1]" = false ∧
    validateSingleUrl (fun _ => none) "https://[::1]/a.png" =
      ⟨false, some "Failed to resolve hostname"⟩ ∧
    validateSingleUrl (fun _ => some ["8.8.8.8"]) "https://[::1]/a.png" =
      ⟨true, none⟩ := by
  decide

/-- Claim C9.  `validateImageUrls` is exactly the independent, order-
preserving map of `validateImageUrl` over the input list: the output has
one verdict per input URL, in input order, each equal to the verdict of
validating that URL alone, so no URL's verdict can influence another's. -/
theorem C9_batch_independent (resolver : String → Option (List String))
    (resolveRel : String → String → Option String)
    (net : String → Except String ProbeOutcome) (urls : List String) :
    (validateImageUrls resolver resolveRel net urls).length = urls.length ∧
    ∀ i : Nat, (validateImageUrls resolver resolveRel net urls)[i]? =
      (urls[i]?).map (validateImageUrl resolver resolveRel net) := by
  constructor
  · simp [validateImageUrls]
  · intro i
    simp [validateImageUrls]

/-- Claim C6.  `checkForRedirect` reports a redirect exactly when the
HEAD outcome is a response whose status (`res.statusCode || 0`) lies in
300–399 and whose `Location` header is present and non-empty (Node header
truthiness) and resolves, relative to the probed URL, to an absolute URL
(`new URL(location, urlString)` succeeding); the reported target is that
resolution.  In every other case — non-3xx, missing `Location`,
unresolvable `Location`, transport error, or the `REQUEST_TIMEOUT`
(5000 ms) timeout — no redirect is reported, and the in-flight request is
destroyed exactly on timeout. -/
theorem C6_probe_redirect_iff (resolveRel : String → String → Option String)
    (outcome : ProbeOutcome) (url : String) :
    REQUEST_TIMEOUT = 5000 ∧
    ((checkForRedirect resolveRel outcome url).hasRedirect = true ↔
      ∃ sc loc target, outcome = .response sc (some loc) ∧
        300 ≤ sc.getD 0 ∧ sc.getD 0 < 400 ∧ loc ≠ "" ∧
        resolveRel loc url = some target ∧
        (checkForRedirect resolveRel outcome url).redirectUrl =
          some target) ∧
    ((checkForRedirect resolveRel outcome url).destroyed = true ↔
      outcome = .timeout) := by
  refine ⟨rfl, ?_, ?_⟩
  · cases outcome with
    | transportError => simp [checkForRedirect]
    | timeout => simp [checkForRedirect]
    | response sc loc =>
      cases loc with
      | none => simp [checkForRedirect, optTruthy]
      | some l =>
        by_cases hcond :
            300 ≤ sc.getD 0 ∧ sc.getD 0 < 400 ∧ optTruthy (some l) = true
        · have hl : l ≠ "" := by
            have := hcond.2.2
            simpa [optTruthy] using this
          cases hres : resolveRel l url with
          | none =>
            simp only [checkForRedirect, if_pos hcond, hres]
            constructor
            · intro h
              exact absurd h (by simp)
            · rintro ⟨sc', loc', target, heq, -, -, -, hres', -⟩
              cases heq
              simp [hres] at hres'
          | some target =>
            simp only [checkForRedirect, if_pos hcond, hres]
            constructor
            · intro _
              exact ⟨sc, l, target, rfl, hcond.1, hcond.2.1, hl, hres, rfl⟩
            · intro _
              trivial
        · simp only [checkForRedirect, if_neg hcond]
          constructor
          · intro h
            exact absurd h (by simp)
          · rintro ⟨sc', loc', target, heq, h1, h2, h3, -, -⟩
            cases heq
            exact (hcond ⟨h1, h2, by simp [optTruthy, h3]⟩).elim
  · have hd : ∀ sc loc,
        (checkForRedirect resolveRel (.response sc loc) url).destroyed =
          false := by
      intro sc loc
      simp only [checkForRedirect]
      split
      · cases loc with
        | none => rfl
        | some l => cases h : resolveRel l url <;> simp [h]
      · rfl
    cases outcome with
    | transportError => simp [checkForRedirect]
    | timeout => simp [checkForRedirect]
    | response sc loc => simp [hd]

/-- Claim C7.  `validateImageUrl` is a total function into
`ImageValidationResult` — every failure is returned as a verdict — and
whenever an unexpected error escapes chain validation (an `Except.error`
from the redirect chain), the entry point converts it into the fixed
generic verdict `'Failed to validate image URL'`, whose text is a
constant independent of the internal error `e`, so no internal detail
reaches the caller. -/
theorem C7_entry_catches_chain_errors
    (resolver : String → Option (List String))
    (resolveRel : String → String → Option String)
    (net : String → Except String ProbeOutcome) (url : String) (e : String)
    (hlen : (jsTrim url).length ≠ 0)
    (hctrl : hasControlChar (jsTrim url) = false)
    (h40 : containsSeqL "%40".data (jsTrim url).data = false)
    (hbs : (jsTrim url).data.contains '\\' = false)
    (hds : doubleSlashCheck (jsTrim url) = false)
    (hchain : followAndValidateRedirects resolver resolveRel net
      (jsTrim url) 0 [] = .error e) :
    validateImageUrl resolver resolveRel net url =
      ⟨false, some "Failed to validate image URL"⟩ := by
  have hbs' : '\\' ∉ (jsTrim url).data := by simpa using hbs
  simp [validateImageUrl, hlen, hctrl, h40, hbs', hds, hchain]

/-- Witness for C7: a concrete URL whose probe rejects; the verdict is
the constant generic one. -/
theorem C7_witness :
    validateImageUrl res0 rr0 netThrow "https://example.com/a.png" =
      ⟨false, some "Failed to validate image URL"⟩ :=
  C7_entry_catches_chain_errors res0 rr0 netThrow
    "https://example.com/a.png" "socket hang up" (by decide) (by decide)
    (by decide) (by decide) (by decide) (by rfl)

/-- `validateSingleUrl` can never produce the `'Too many redirects'`
verdict: its error strings form a fixed, disjoint set. -/
theorem validateSingleUrl_ne_tooMany
    (resolver : String → Option (List String)) (s : String) :
    validateSingleUrl resolver s ≠ ⟨false, some "Too many redirects"⟩ := by
  intro h
  unfold validateSingleUrl at h
  dsimp only at h
  repeat' split at h
  all_goals simp_all

/-- With enough fuel and a hop index within the redirect budget,
`followRedirectsAux` never produces the `'Too many redirects'` verdict:
the source's limit check `redirectCount > MAX_REDIRECTS` can only fire on
a recursive call, but recursion is guarded by
`redirectCount < MAX_REDIRECTS`, so the rejection is dead code. -/
theorem followRedirectsAux_ne_tooMany
    (resolver : String → Option (List String))
    (resolveRel : String → String → Option String)
    (net : String → Except String ProbeOutcome) :
    ∀ fuel urlString redirectCount visitedUrls,
    redirectCount ≤ MAX_REDIRECTS →
    MAX_REDIRECTS + 1 - redirectCount ≤ fuel →
    followRedirectsAux resolver resolveRel net fuel urlString redirectCount
      visitedUrls ≠ .ok ⟨false, some "Too many redirects"⟩ := by
  intro fuel
  induction fuel with
  | zero =>
    intro u c v hc hf
    simp only [MAX_REDIRECTS] at hc hf
    omega
  | succ n ih =>
    intro u c v hc hf
    simp only [followRedirectsAux]
    rw [if_neg (by omega : ¬ c > MAX_REDIRECTS)]
    by_cases hv : u ∈ v
    · rw [if_pos hv]
      simp
    · rw [if_neg hv]
      by_cases hval : (validateSingleUrl resolver u).valid = false
      · rw [if_pos hval]
        intro h
        simp only [Except.ok.injEq] at h
        rcases hres : validateSingleUrl resolver u with ⟨vv, ee⟩
        rw [hres] at hval h
        simp only at hval h
        apply validateSingleUrl_ne_tooMany resolver u
        rw [hres, hval]
        rw [show ee = some "Too many redirects" from by
          have := congrArg ImageValidationResult.error h
          simpa using this]
      · rw [if_neg hval]
        by_cases hg : c = 0 ∨ c < MAX_REDIRECTS
        · rw [if_pos hg]
          cases hnet : net u with
          | error e => simp
          | ok outcome =>
            simp only
            by_cases hr :
                ((checkForRedirect resolveRel outcome u).hasRedirect &&
                  optTruthy (checkForRedirect resolveRel outcome
                    u).redirectUrl) = true
            · rw [if_pos hr]
              cases ht :
                  (checkForRedirect resolveRel outcome u).redirectUrl with
              | none => simp
              | some target =>
                apply ih target (c + 1) (u :: v)
                · simp only [MAX_REDIRECTS] at *
                  omega
                · simp only [MAX_REDIRECTS] at *
                  omega
            · rw [if_neg hr]
              simp
        · rw [if_neg hg]
          simp

/-- Claim C1.  The claim says a chain of four redirects is rejected with
`TooManyRedirects` after `MAX_REDIRECTS + 1` hops.  On the code this is
false: in the fixture `net4`, `chainUrl 0` redirects four times in a row
and every hop passes single-URL validation, yet the verdict is
`valid = true` — the guard `redirectCount === 0 || redirectCount <
MAX_REDIRECTS` skips the probe at hop 3, so the fourth redirect is never
seen and, more generally (last conjunct), the `'Too many redirects'`
verdict is unreachable from any hop index within the budget (in
particular from the entry point's `redirectCount = 0`). -/
theorem C1_four_redirects_accepted :
    validateSingleUrl res0 (chainUrl 0) = ⟨true, none⟩ ∧
    validateSingleUrl res0 (chainUrl 1) = ⟨true, none⟩ ∧
    validateSingleUrl res0 (chainUrl 2) = ⟨true, none⟩ ∧
    validateSingleUrl res0 (chainUrl 3) = ⟨true, none⟩ ∧
    validateSingleUrl res0 (chainUrl 4) = ⟨true, none⟩ ∧
    validateImageUrl res0 rr0 net4 (chainUrl 0) = ⟨true, none⟩ ∧
    ∀ (resolver : String → Option (List String))
      (resolveRel : String → String → Option String)
      (net : String → Except String ProbeOutcome)
      (urlString : String) (redirectCount : Nat)
      (visitedUrls : List String),
      redirectCount ≤ MAX_REDIRECTS →
      followAndValidateRedirects resolver resolveRel net urlString
        redirectCount visitedUrls ≠
        .ok ⟨false, some "Too many redirects"⟩ := by
  refine ⟨by decide, by decide, by decide, by decide, by decide, by decide,
    ?_⟩
  intro resolver resolveRel net u c v hc
  unfold followAndValidateRedirects
  apply followRedirectsAux_ne_tooMany resolver resolveRel net _ u c v hc
  simp only [MAX_REDIRECTS]
  omega

/-- Witness for C1: the unreachability conjunct applied at the entry
point's initial state on the four-redirect fixture. -/
theorem C1_witness :
    followAndValidateRedirects res0 rr0 net4 (chainUrl 0) 0 [] ≠
      .ok ⟨false, some "Too many redirects"⟩ :=
  C1_four_redirects_accepted.2.2.2.2.2.2 res0 rr0 net4 (chainUrl 0) 0 []
    (by decide)

/-- Counterexample for C8.  In the fixture `netLoop4` the redirect chain
returns to the already-visited `chainUrl 0` (`0 → 1 → 2 → 3 → 0`), every
hop passing single-URL validation, yet the verdict is `valid = true`, not
`RedirectLoop`: the probe guard stops probing at hop `MAX_REDIRECTS`, so
the loop-closing fourth redirect is never observed. -/
theorem C8_counterexample :
    validateImageUrl res0 rr0 netLoop4 (chainUrl 0) = ⟨true, none⟩ ∧
    validateImageUrl res0 rr0 netLoop4 (chainUrl 0) ≠
      ⟨false, some "Redirect loop detected"⟩ := by
  decide

/-- Claim C8 (amended).  Whenever chain validation reaches a hop whose
current URL is already in the visited set — which happens whenever the
chain returns to a visited URL within the first `MAX_REDIRECTS` redirects
— the verdict is `RedirectLoop`; in particular a URL that redirects back
to itself yields `RedirectLoop` (second conjunct, at the entry point).
Each hop's URL is added to the visited set before probing (the recursion
passes `urlString :: visitedUrls` to the next hop). -/
theorem C8_redirect_loop_detection :
    (∀ (resolver : String → Option (List String))
      (resolveRel : String → String → Option String)
      (net : String → Except String ProbeOutcome)
      (urlString : String) (redirectCount : Nat)
      (visitedUrls : List String),
      redirectCount ≤ MAX_REDIRECTS →
      urlString ∈ visitedUrls →
      followAndValidateRedirects resolver resolveRel net urlString
        redirectCount visitedUrls =
        .ok ⟨false, some "Redirect loop detected"⟩) ∧
    validateImageUrl res0 rr0 netSelf (chainUrl 0) =
      ⟨false, some "Redirect loop detected"⟩ := by
  constructor
  · intro resolver resolveRel net u c v hc hv
    unfold followAndValidateRedirects
    simp only [followRedirectsAux]
    rw [if_neg (by omega : ¬ c > MAX_REDIRECTS), if_pos hv]
  · decide

/-- Witness for C8: the loop-detection conjunct applied at a hop whose
URL is already visited. -/
theorem C8_witness :
    followAndValidateRedirects res0 rr0 netSelf (chainUrl 0) 1
      [chainUrl 0] = .ok ⟨false, some "Redirect loop detected"⟩ :=
  C8_redirect_loop_detection.1 res0 rr0 netSelf (chainUrl 0) 1 [chainUrl 0]
    (by decide) (by decide)

/-- A pattern that starts a list also starts any right-extension of it. -/
theorem startsWithL_append (b : List Char) :
    ∀ pat a, startsWithL pat a = true → startsWithL pat (a ++ b) = true := by
  intro pat
  induction pat with
  | nil =>
    intro a _
    rfl
  | cons p ps ih =>
    intro a h
    cases a with
    | nil => simp [startsWithL] at h
    | cons c cs =>
      simp only [startsWithL, Bool.and_eq_true, decide_eq_true_eq] at h
      simp only [List.cons_append, startsWithL, Bool.and_eq_true,
        decide_eq_true_eq]
      exact ⟨h.1, ih cs h.2⟩

/-- `isBlockedIPv6Core` answers true as soon as any of its prefix-family
conditions (link-local, unique-local, multicast) holds: every branch
before the one that fires also answers true. -/
theorem isBlockedIPv6Core_prefixFamilies (n : List Char)
    (h : (startsWithL "fe80:".data n || startsWithL "fe8".data n ||
          startsWithL "fe9".data n || startsWithL "fea".data n ||
          startsWithL "feb".data n) = true ∨
         (startsWithL "fc".data n || startsWithL "fd".data n) = true ∨
         startsWithL "ff".data n = true) :
    isBlockedIPv6Core n = true := by
  unfold isBlockedIPv6Core
  split
  · rfl
  · split
    · rfl
    · by_cases h3 : (startsWithL "fe80:".data n || startsWithL "fe8".data n ||
          startsWithL "fe9".data n || startsWithL "fea".data n ||
          startsWithL "feb".data n) = true
      · rw [if_pos h3]
      · rw [if_neg h3]
        by_cases h4 : (startsWithL "fc".data n ||
            startsWithL "fd".data n) = true
        · rw [if_pos h4]
        · rw [if_neg h4]
          by_cases h5 : startsWithL "ff".data n = true
          · rw [if_pos h5]
          · rcases h with h | h | h
            · exact absurd h h3
            · exact absurd h h4
            · exact absurd h h5

set_option maxRecDepth 20000 in
/-- Claim C4.  `isBlockedIPv6` blocks loopback (`::1`, also uncompressed),
the unspecified address (`::`), every link-local `fe80::/10` address,
every unique-local `fc00::/7` address, every multicast `ff00::/8`
address, and every IPv4-mapped `::ffff:a.b.c.d` whose embedded dotted
quad the IPv4 table blocks; `2001:4860:4860::8888` is allowed.  The
prefix families are quantified through `isBlockedIPv6Core` (the function
on the lower-cased text, with `isBlockedIPv6 s =
isBlockedIPv6Core (lcList s.data)` by definition): an address belongs to
`fe80::/10`, `fc00::/7` or `ff00::/8` exactly when its leading 16-bit
group `g` lies in `[0xfe80, 0xfebf]`, `[0xfc00, 0xfdff]` or
`[0xff00, 0xffff]` respectively, and every textual form of such an
address begins with the four hex digits of `g` followed by a colon. -/
theorem C4_isBlockedIPv6_families :
    isBlockedIPv6 "::1" = true ∧
    isBlockedIPv6 "0:0:0:0:0:0:0:1" = true ∧
    isBlockedIPv6 "::" = true ∧
    (∀ s : String, isBlockedIPv6 s = isBlockedIPv6Core (lcList s.data)) ∧
    (∀ (g : Nat) (rest : List Char), 65152 ≤ g → g < 65216 →
      isBlockedIPv6Core (hex4 g ++ ':' :: rest) = true) ∧
    (∀ (g : Nat) (rest : List Char), 64512 ≤ g → g < 65024 →
      isBlockedIPv6Core (hex4 g ++ ':' :: rest) = true) ∧
    (∀ (g : Nat) (rest : List Char), 65280 ≤ g → g < 65536 →
      isBlockedIPv6Core (hex4 g ++ ':' :: rest) = true) ∧
    (∀ quad : List Char, quadPatL quad = true →
      isBlockedIP (String.mk quad) = true →
      isBlockedIPv6Core ([':', ':', 'f', 'f', 'f', 'f', ':'] ++ quad) =
        true) ∧
    isBlockedIPv6 "::ffff:127.0.0.1" = true ∧
    isBlockedIPv6 "fe80::1" = true ∧
    isBlockedIPv6 "fc00::1" = true ∧
    isBlockedIPv6 "2001:4860:4860::8888" = false := by
  refine ⟨by decide, by decide, by decide, fun _ => rfl, ?_, ?_, ?_, ?_,
    by decide, by decide, by decide, by decide⟩
  · intro g rest h1 h2
    apply isBlockedIPv6Core_prefixFamilies
    left
    have key : ∀ d : Nat, d < 64 →
        (startsWithL "fe8".data (hex4 (65152 + d)) ||
          startsWithL "fe9".data (hex4 (65152 + d)) ||
          startsWithL "fea".data (hex4 (65152 + d)) ||
          startsWithL "feb".data (hex4 (65152 + d))) = true := by decide
    have k := key (g - 65152) (by omega)
    rw [show 65152 + (g - 65152) = g from by omega] at k
    simp only [Bool.or_eq_true] at k ⊢
    rcases k with ((k | k) | k) | k
    · exact Or.inl (Or.inl (Or.inl (Or.inr
        (startsWithL_append (':' :: rest) _ _ k))))
    · exact Or.inl (Or.inl (Or.inr (startsWithL_append (':' :: rest) _ _ k)))
    · exact Or.inl (Or.inr (startsWithL_append (':' :: rest) _ _ k))
    · exact Or.inr (startsWithL_append (':' :: rest) _ _ k)
  · intro g rest h1 h2
    apply isBlockedIPv6Core_prefixFamilies
    right; left
    have key : ∀ d : Nat, d < 512 →
        (startsWithL "fc".data (hex4 (64512 + d)) ||
          startsWithL "fd".data (hex4 (64512 + d))) = true := by decide
    have k := key (g - 64512) (by omega)
    rw [show 64512 + (g - 64512) = g from by omega] at k
    simp only [Bool.or_eq_true] at k ⊢
    rcases k with k | k
    · exact Or.inl (startsWithL_append (':' :: rest) _ _ k)
    · exact Or.inr (startsWithL_append (':' :: rest) _ _ k)
  · intro g rest h1 h2
    apply isBlockedIPv6Core_prefixFamilies
    right; right
    have key : ∀ d : Nat, d < 256 →
        startsWithL "ff".data (hex4 (65280 + d)) = true := by decide
    have k := key (g - 65280) (by omega)
    rw [show 65280 + (g - 65280) = g from by omega] at k
    exact startsWithL_append (':' :: rest) _ _ k
  · intro quad hq hb
    unfold isBlockedIPv6Core
    rw [if_neg (by simp), if_neg (by simp),
      if_neg (by simp [startsWithL]), if_neg (by simp [startsWithL]),
      if_neg (by simp [startsWithL]),
      if_pos (by simp [containsSeqL, startsWithL])]
    have hfind : findMappedV4
        ([':', ':', 'f', 'f', 'f', 'f', ':'] ++ quad) = some quad := by
      simp [findMappedV4, startsWithL, hq]
    rw [hfind]
    exact hb

/-- Witness for C4: the quantified family conjuncts applied at concrete
inputs — the canonical link-local `fe80::1` text via its leading group
`0xfe80`, and the blocked mapped quad `127.0.0.1`. -/
theorem C4_witness :
    isBlockedIPv6Core (hex4 65152 ++ ':' :: [':', '1']) = true ∧
    isBlockedIPv6Core (hex4 64512 ++ ':' :: [':', '1']) = true ∧
    isBlockedIPv6Core (hex4 65282 ++ ':' :: [':', '1']) = true ∧
    isBlockedIPv6Core ([':', ':', 'f', 'f', 'f', 'f', ':'] ++
      "127.0.0.1".data) = true :=
  ⟨C4_isBlockedIPv6_families.2.2.2.2.1 65152 [':', '1'] (by decide)
     (by decide),
   C4_isBlockedIPv6_families.2.2.2.2.2.1 64512 [':', '1'] (by decide)
     (by decide),
   C4_isBlockedIPv6_families.2.2.2.2.2.2.1 65282 [':', '1'] (by decide)
     (by decide),
   C4_isBlockedIPv6_families.2.2.2.2.2.2.2.1 "127.0.0.1".data (by decide)
     (by decide)⟩

/-- Claim C5.  For a URL whose hostname is not an IP literal (and passes
the earlier syntactic checks), `validateSingleUrl` resolves the hostname
through the resolver oracle — which models `dns.lookup(hostname,
{ all: true })`, i.e. *all* A/AAAA records — and classifies every
returned address with `blockedResolvedAddr`: if resolution fails the
verdict is `'Failed to resolve hostname'` (ResolutionFailure); if *any*
resolved address, not merely the first, is blocked the verdict is
`'Resolved IP address is not allowed'` (IpNotAllowed); if none is
blocked, the hop succeeds. -/
theorem C5_resolution_classification
    (resolver : String → Option (List String)) (s : String) (u : UrlParts)
    (hlen : s.length ≤ MAX_URL_LENGTH)
    (hparse : parseUrl s = some u)
    (hproto : u.protocol = "https:")
    (hhost : isBlockedHostname u.hostname = false)
    (hip : isIPAddress u.hostname = false) :
    (resolver u.hostname = none →
      validateSingleUrl resolver s =
        ⟨false, some "Failed to resolve hostname"⟩) ∧
    (∀ ips, resolver u.hostname = some ips →
      ((∃ ip ∈ ips, blockedResolvedAddr ip = true) →
        validateSingleUrl resolver s =
          ⟨false, some "Resolved IP address is not allowed"⟩) ∧
      ((∀ ip ∈ ips, blockedResolvedAddr ip = false) →
        validateSingleUrl resolver s = ⟨true, none⟩)) := by
  have hval : validateSingleUrl resolver s =
      match resolver u.hostname with
      | none => ⟨false, some "Failed to resolve hostname"⟩
      | some ips =>
        match ips.find? blockedResolvedAddr with
        | some _ => ⟨false, some "Resolved IP address is not allowed"⟩
        | none => ⟨true, none⟩ := by
    unfold validateSingleUrl
    rw [if_neg (by omega : ¬ s.length > MAX_URL_LENGTH), hparse]
    dsimp only
    rw [if_neg (by simp [hproto]), if_neg (by simp [hhost]),
      if_neg (by simp [hip])]
  refine ⟨?_, ?_⟩
  · intro hr
    rw [hval, hr]
  · intro ips hr
    refine ⟨?_, ?_⟩
    · rintro ⟨ip, hmem, hblocked⟩
      rw [hval, hr]
      cases hfind : ips.find? blockedResolvedAddr with
      | none =>
        rw [List.find?_eq_none] at hfind
        exact absurd hblocked (by simpa using hfind ip hmem)
      | some w => simp [hfind]
    · intro hall
      rw [hval, hr]
      have hfind : ips.find? blockedResolvedAddr = none :=
        List.find?_eq_none.mpr fun x hx => by simp [hall x hx]
      simp [hfind]

/-- Witness for C5: a public hostname at each of the three outcomes —
failing resolution, a mixed record set containing one blocked address,
and an all-public record set. -/
theorem C5_witness :
    validateSingleUrl (fun _ => none) "https://example.com/a.png" =
      ⟨false, some "Failed to resolve hostname"⟩ ∧
    validateSingleUrl (fun _ => some ["93.184.216.34", "10.0.0.5"])
      "https://example.com/a.png" =
      ⟨false, some "Resolved IP address is not allowed"⟩ ∧
    validateSingleUrl (fun _ => some ["93.184.216.34"])
      "https://example.com/a.png" = ⟨true, none⟩ :=
  ⟨(C5_resolution_classification (fun _ => none) "https://example.com/a.png"
      ⟨"https:", "example.com"⟩ (by decide) (by decide) rfl (by decide)
      (by decide)).1 rfl,
   ((C5_resolution_classification (fun _ => some ["93.184.216.34",
       "10.0.0.5"]) "https://example.com/a.png" ⟨"https:", "example.com"⟩
       (by decide) (by decide) rfl (by decide) (by decide)).2
     ["93.184.216.34", "10.0.0.5"] rfl).1
     ⟨"10.0.0.5", by decide, by decide⟩,
   ((C5_resolution_classification (fun _ => some ["93.184.216.34"])
       "https://example.com/a.png" ⟨"https:", "example.com"⟩ (by decide)
       (by decide) rfl (by decide) (by decide)).2
     ["93.184.216.34"] rfl).2 (by decide)⟩
